import Mathlib

/-
Verification of the matlab-mcp execution gateway.

The repository has two server variants:
  matlab_server.py            (four tools: create_matlab_script, create_matlab_function,
                               execute_matlab_command, execute_matlab_script)
  matlab_server_subprocess.py (one tool: execute_matlab_command)

Both wrap a single function `run_matlab_command` that launches an external
MATLAB process with `subprocess.run([...], timeout=60)` and normalizes the
outcome into a result dictionary.  We embed the pure decision logic of these
files: the outcome of the external process (its captured stdout/stderr and
exit code, a timeout, or an exception during launch) is an explicit input
`ProcOutcome`, and the filesystem directory of stored scripts is an explicit
map from path strings to file contents.
-/

namespace MatlabMCP

/-- Does `hay` start with `needle`?  (Plain character-list comparison.) -/
def listStarts : List Char → List Char → Bool
  | _, [] => true
  | [], _ :: _ => false
  | c :: t, d :: u => c == d && listStarts t u

/-- Does `hay` contain `needle` as a contiguous substring? -/
def listHas : List Char → List Char → Bool
  | [], needle => needle.isEmpty
  | c :: t, needle => listStarts (c :: t) needle || listHas t needle

/-- Does string `hay` contain string `needle` as a contiguous substring? -/
def strHas (hay needle : String) : Bool :=
  listHas hay.toList needle.toList

/-- Model of Python's per-character alphanumeric test used by `str.isalnum`.
Python's `str.isalnum` is Unicode-aware: it accepts every Unicode
alphanumeric character, not only ASCII.  We model the ASCII letter and digit
classes exactly, and, of the non-ASCII alphanumerics, the Latin-1 letter
block U+00C0..U+00FF minus the two non-letters U+00D7 (multiplication sign)
and U+00F7 (division sign); every character the claims evaluate this on lies
in the modelled region, and on it the function agrees with Python. -/
def pyCharIsAlnum (c : Char) : Bool :=
  c.isAlpha || c.isDigit ||
    (0xC0 ≤ c.toNat && c.toNat ≤ 0xFF && !(c.toNat == 0xD7) && !(c.toNat == 0xF7))

/-- Model of Python's `str.isalnum`: true iff the string is non-empty and
every character is alphanumeric. -/
def pyStrIsAlnum (l : List Char) : Bool :=
  !l.isEmpty && l.all pyCharIsAlnum

/-- The character class `[A-Za-z0-9_]` named by the specification (ASCII
letters, ASCII digits, underscore). -/
def asciiIdentChar (c : Char) : Bool :=
  c.isAlpha || c.isDigit || c == '_'

/-- The name check both create tools perform, from
`matlab_server.py` lines 160 and 185:
`script_name.replace('_', '').isalnum()` — remove every underscore, then
apply Python `isalnum`. -/
def validateName (name : String) : Bool :=
  pyStrIsAlnum (name.toList.filter (fun c => !(c == '_')))

/-- Index of the last slash in a character list, if any. -/
def lastSlashPos : List Char → Option Nat
  | [] => none
  | c :: t =>
    match lastSlashPos t with
    | some n => some (n + 1)
    | none => if c == '/' then some 0 else none

/-- Model of `posixpath.split` (the repository runs under WSL, so paths are
POSIX): split at the last slash; the head keeps its trailing slashes only
when it consists of slashes alone. -/
def os_split (p : String) : String × String :=
  let l := p.toList
  match lastSlashPos l with
  | none => ("", p)
  | some n =>
    let head := l.take (n + 1)
    let tail := l.drop (n + 1)
    let head2 := if head.all (fun c => c == '/') then head
                 else (head.reverse.dropWhile (fun c => c == '/')).reverse
    (String.mk head2, String.mk tail)

/-- Model of `os.path.dirname`. -/
def os_dirname (p : String) : String := (os_split p).1

/-- Model of `os.path.basename`. -/
def os_basename (p : String) : String := (os_split p).2

/-- Model of Python `s.replace('.m', '')`: delete every (left-to-right,
non-overlapping) occurrence of the two-character substring ".m". -/
def stripDotM : List Char → List Char
  | '.' :: 'm' :: t => stripDotM t
  | c :: t => c :: stripDotM t
  | [] => []

/-- Outcome of the external MATLAB process, the input that
`subprocess.run` hands back to `run_matlab_command`: normal completion with
captured streams and exit code, expiry of the 60-second timeout
(`subprocess.TimeoutExpired`), or any other exception raised during launch
(caught by the `except Exception` clause, carrying its message). -/
inductive ProcOutcome where
  | completed (stdout stderr : String) (returncode : Int)
  | timedOut
  | raised (msg : String)
deriving DecidableEq, Repr

/-- The result dictionary `run_matlab_command` returns:
`{"output": ..., "error": ..., "success": ..., "return_code": ...}`. -/
structure ExecResult where
  output : String
  error : String
  success : Bool
  return_code : Int
deriving DecidableEq, Repr

/-- The script storage directory `MATLAB_DIR = Path("matlab_scripts")`. -/
def MATLAB_DIR : String := "matlab_scripts"

/-- The stored-scripts directory as a map from path strings to file
contents (`none` = no such file). -/
def Store : Type := String → Option String

namespace MatlabServer

/-- The invocation string built by `run_matlab_command` in
`matlab_server.py` (lines 41-47): for a script, cd into its directory and
run its bare name with `; exit` appended; for an ad-hoc command, the command
with `; exit` appended.  Python's `if script_path:` is falsy both for `None`
and for the empty string. -/
def full_command (command : String) (script_path : Option String) : String :=
  match script_path with
  | some p =>
    if p == "" then command ++ "; exit"
    else "cd('" ++ os_dirname p ++ "'); "
         ++ String.mk (stripDotM (os_basename p).toList) ++ "; exit"
  | none => command ++ "; exit"

/-- `run_matlab_command` of `matlab_server.py` (lines 28-76): normal
completion yields the captured streams with success iff the exit code is 0;
`subprocess.TimeoutExpired` yields the fixed timeout dictionary; any other
exception yields the generic error dictionary.  The `try` block wraps the
whole body, so every path returns a dictionary and no exception escapes. -/
def run_matlab_command (command : String) (script_path : Option String)
    (proc : ProcOutcome) : ExecResult :=
  match proc with
  | .completed out err rc => ⟨out, err, rc == 0, rc⟩
  | .timedOut => ⟨"", "MATLAB command timed out after 60 seconds", false, -1⟩
  | .raised msg => ⟨"", "Error running MATLAB: " ++ msg, false, -1⟩

/-- Response of the two create tools: a validation-error message, or the
confirmation carrying the stored path.  (The source renders the absolute
path; we keep the path relative to the working directory, which does not
affect any claim.) -/
inductive CreateResult where
  | validationError (message : String)
  | created (path : String)
deriving DecidableEq, Repr

/-- `create_matlab_script` branch of `handle_call_tool`
(`matlab_server.py` lines 155-178): validate the name with
`script_name.replace('_', '').isalnum()`; on failure return the error text
and touch nothing; on success write `code` to
`matlab_scripts/<script_name>.m` (overwriting) and confirm. -/
def handle_create_script (store : Store) (script_name code : String) :
    CreateResult × Store :=
  if validateName script_name then
    let path := MATLAB_DIR ++ "/" ++ script_name ++ ".m"
    (.created path, fun k => if k == path then some code else store k)
  else
    (.validationError ("Error: Script name '" ++ script_name
        ++ "' must be a valid MATLAB identifier"), store)

/-- `create_matlab_function` branch of `handle_call_tool`
(`matlab_server.py` lines 180-203): identical to the script branch except
for the wording of its messages — in particular it performs no inspection
of `code` whatsoever. -/
def handle_create_function (store : Store) (function_name code : String) :
    CreateResult × Store :=
  if validateName function_name then
    let path := MATLAB_DIR ++ "/" ++ function_name ++ ".m"
    (.created path, fun k => if k == path then some code else store k)
  else
    (.validationError ("Error: Function name '" ++ function_name
        ++ "' must be a valid MATLAB identifier"), store)

/-- Rendering of an execution result by the `execute_matlab_command` branch
(`matlab_server.py` lines 210-218): on success the output plus any stderr
as warnings; on failure the return code and stderr, with stdout appended
whenever it is non-empty. -/
def renderCommandResponse (command : String) (result : ExecResult) : String :=
  let response := "MATLAB Command: " ++ command ++ "\n\n"
  if result.success then
    let r := response ++ "Output:\n" ++ result.output
    if result.error == "" then r
    else r ++ "\n\nWarnings/Messages:\n" ++ result.error
  else
    let r := response ++ "Error (Return code: " ++ toString result.return_code
        ++ "):\n" ++ result.error
    if result.output == "" then r
    else r ++ "\n\nOutput:\n" ++ result.output

/-- `execute_matlab_command` branch of `handle_call_tool`
(`matlab_server.py` lines 205-220). -/
def handle_execute_command (command : String) (proc : ProcOutcome) : String :=
  renderCommandResponse command (run_matlab_command command none proc)

/-- Rendering of an execution result by the `execute_matlab_script` branch
(`matlab_server.py` lines 234-242): same branches as the command renderer
under a different header. -/
def renderScriptResponse (script_name : String) (result : ExecResult) : String :=
  let response := "Executed MATLAB script: " ++ script_name ++ ".m\n\n"
  if result.success then
    let r := response ++ "Output:\n" ++ result.output
    if result.error == "" then r
    else r ++ "\n\nWarnings/Messages:\n" ++ result.error
  else
    let r := response ++ "Error (Return code: " ++ toString result.return_code
        ++ "):\n" ++ result.error
    if result.output == "" then r
    else r ++ "\n\nOutput:\n" ++ result.output

/-- Outcome of the `execute_matlab_script` branch: either the not-found
error text (produced before any subprocess interaction), or the script path
handed to the gateway together with the gateway's result and its rendering. -/
inductive ScriptExec where
  | notFound (message : String)
  | executed (script_path : String) (result : ExecResult) (response : String)
deriving DecidableEq, Repr

/-- `execute_matlab_script` branch of `handle_call_tool`
(`matlab_server.py` lines 222-244): resolve `matlab_scripts/<name>.m`; if
the file does not exist, return the error text at once; otherwise call
`run_matlab_command("", script_path)` and render the result.  No validation
of any kind is applied to `script_name`. -/
def handle_execute_script (store : Store) (script_name : String)
    (proc : ProcOutcome) : ScriptExec :=
  let script_path := MATLAB_DIR ++ "/" ++ script_name ++ ".m"
  match store script_path with
  | none => .notFound ("Error: Script '" ++ script_name ++ ".m' not found in "
      ++ MATLAB_DIR)
  | some _ =>
    let result := run_matlab_command "" (some script_path) proc
    .executed script_path result (renderScriptResponse script_name result)

end MatlabServer

namespace MatlabSubprocess

/-- The invocation string built by `run_matlab_command` in
`matlab_server_subprocess.py` (lines 31-36): for a script, cd into its
directory and run its bare name; for an ad-hoc command, the command itself,
with nothing appended in either case. -/
def full_command (command : String) (script_path : Option String) : String :=
  match script_path with
  | some p =>
    if p == "" then command
    else "cd('" ++ os_dirname p ++ "'); "
         ++ String.mk (stripDotM (os_basename p).toList)
  | none => command

/-- `run_matlab_command` of `matlab_server_subprocess.py` (lines 28-64):
the result dictionaries are character-for-character the same as in
`matlab_server.py`. -/
def run_matlab_command (command : String) (script_path : Option String)
    (proc : ProcOutcome) : ExecResult :=
  match proc with
  | .completed out err rc => ⟨out, err, rc == 0, rc⟩
  | .timedOut => ⟨"", "MATLAB command timed out after 60 seconds", false, -1⟩
  | .raised msg => ⟨"", "Error running MATLAB: " ++ msg, false, -1⟩

/-- Rendering of an execution result by the `execute_matlab_command` branch
(`matlab_server_subprocess.py` lines 96-102): on success the output plus any
stderr as warnings; on failure only the error text — the captured stdout is
not included. -/
def renderCommandResponse (command : String) (result : ExecResult) : String :=
  let response := "MATLAB Command: " ++ command ++ "\n\n"
  if result.success then
    let r := response ++ "Output:\n" ++ result.output
    if result.error == "" then r
    else r ++ "\n\nWarnings:\n" ++ result.error
  else
    response ++ "Error:\n" ++ result.error

/-- `execute_matlab_command` branch of `handle_call_tool`
(`matlab_server_subprocess.py` lines 89-104). -/
def handle_execute_command (command : String) (proc : ProcOutcome) : String :=
  renderCommandResponse command (run_matlab_command command none proc)

end MatlabSubprocess

/-- Whitespace test used by the specification-side body check. -/
def specIsWs (c : Char) : Bool :=
  c == ' ' || c == '\t' || c == '\n' || c == '\r'

/-- The first non-whitespace token of a body (maximal run of non-whitespace
characters after leading whitespace). -/
def specFirstTok (code : String) : List Char :=
  (code.toList.dropWhile specIsWs).takeWhile (fun c => !(specIsWs c))

/-- Specification-side definition, following the spec's words for claim C6
("validates the body's first non-whitespace token declares a function"):
the first non-whitespace token of the body is the keyword `function`.  No
such check exists anywhere in the source; this definition exists only to
state that divergence. -/
def specFunctionBodyCheck (code : String) : Bool :=
  specFirstTok code == "function".toList

/-- The everywhere-empty stored-scripts directory. -/
def emptyStore : Store := fun _ => none

/-- A name containing a character that is neither an underscore nor
Python-alphanumeric fails the name check: the character survives the
underscore removal and falsifies `isalnum`. -/
theorem validateName_false_of_bad {name : String} {c : Char}
    (hc : c ∈ name.toList) (hne : c ≠ '_') (hbad : pyCharIsAlnum c = false) :
    validateName name = false := by
  unfold validateName pyStrIsAlnum
  have hmem : c ∈ name.toList.filter (fun c => !(c == '_')) :=
    List.mem_filter.mpr ⟨hc, by simp [hne]⟩
  have hall : (name.toList.filter (fun c => !(c == '_'))).all pyCharIsAlnum = false := by
    rcases Bool.eq_false_or_eq_true
        ((name.toList.filter (fun c => !(c == '_'))).all pyCharIsAlnum) with h | h
    · have hco := List.all_eq_true.mp h c hmem
      rw [hbad] at hco
      exact absurd hco (by simp)
    · exact h
  rw [hall]
  simp

/-- A name consisting only of underscores (the empty name included) fails
the name check: underscore removal leaves the empty string, and Python's
`isalnum` is false on the empty string. -/
theorem validateName_false_of_underscores {name : String}
    (h : ∀ c ∈ name.toList, c = '_') :
    validateName name = false := by
  unfold validateName pyStrIsAlnum
  have hfil : name.toList.filter (fun c => !(c == '_')) = [] := by
    apply List.filter_eq_nil_iff.mpr
    intro a ha
    simp [h a ha]
  rw [hfil]
  rfl

/-- C2, counterexample: on timeout the error text the gateway actually
stores is "MATLAB command timed out after 60 seconds", which is not equal
to "timed out after 60 seconds" as the claim states. -/
theorem C2_counterexample :
    (MatlabServer.run_matlab_command "x" none ProcOutcome.timedOut).error
      ≠ "timed out after 60 seconds" := by
  decide

/-- C2 (amended): in both server variants, a command whose external process
exceeds the 60-second timeout yields success=false, returnCode=-1,
output="", and errorText = "MATLAB command timed out after 60 seconds" —
an error message mentioning the timeout (it contains "timed out after 60
seconds" as a substring), though not equal to that shorter string. -/
theorem C2_theorem (cmd : String) (sp : Option String) :
    MatlabServer.run_matlab_command cmd sp ProcOutcome.timedOut
      = ⟨"", "MATLAB command timed out after 60 seconds", false, -1⟩ ∧
    MatlabSubprocess.run_matlab_command cmd sp ProcOutcome.timedOut
      = ⟨"", "MATLAB command timed out after 60 seconds", false, -1⟩ ∧
    strHas (MatlabServer.run_matlab_command cmd sp ProcOutcome.timedOut).error
      "timed out after 60 seconds" = true := by
  refine ⟨rfl, rfl, ?_⟩
  show strHas "MATLAB command timed out after 60 seconds"
      "timed out after 60 seconds" = true
  decide

/-- C7, counterexample: in `matlab_server_subprocess.py` the invocation
string for an ad-hoc command is the bare command, with no
session-termination directive appended — for "disp(1)" the invocation is
exactly "disp(1)" and contains no "exit". -/
theorem C7_counterexample :
    MatlabSubprocess.full_command "disp(1)" none = "disp(1)" ∧
    strHas (MatlabSubprocess.full_command "disp(1)" none) "exit" = false := by
  exact ⟨rfl, by decide⟩

/-- C7 (amended): in one-shot-process mode, `matlab_server.py` launches the
external process with the command plus the appended termination directive
"; exit"; `matlab_server_subprocess.py` launches it with the bare command
(session termination is left to the `-batch` flag instead). -/
theorem C7_theorem (cmd : String) :
    MatlabServer.full_command cmd none = cmd ++ "; exit" ∧
    MatlabSubprocess.full_command cmd none = cmd :=
  ⟨rfl, rfl⟩

/-- C8: the gateway is a total function of the process outcome — the `try`
block of `run_matlab_command` wraps its whole body, so every path returns a
result object (which the totality of this embedding reflects) and never
propagates an exception.  Normal completion carries the captured stdout and
stderr with success exactly when the exit code is 0; timeout and
launch-time exception each yield a success=false result carrying
diagnostic text, in both server variants. -/
theorem C8_theorem (cmd msg out err : String) (sp : Option String) (rc : Int) :
    ((MatlabServer.run_matlab_command cmd sp (ProcOutcome.completed out err rc)).success
        = true ↔ rc = 0) ∧
    (MatlabServer.run_matlab_command cmd sp (ProcOutcome.completed out err rc)).output = out ∧
    (MatlabServer.run_matlab_command cmd sp (ProcOutcome.completed out err rc)).error = err ∧
    MatlabServer.run_matlab_command cmd sp ProcOutcome.timedOut
      = ⟨"", "MATLAB command timed out after 60 seconds", false, -1⟩ ∧
    MatlabServer.run_matlab_command cmd sp (ProcOutcome.raised msg)
      = ⟨"", "Error running MATLAB: " ++ msg, false, -1⟩ ∧
    ((MatlabSubprocess.run_matlab_command cmd sp (ProcOutcome.completed out err rc)).success
        = true ↔ rc = 0) ∧
    MatlabSubprocess.run_matlab_command cmd sp ProcOutcome.timedOut
      = ⟨"", "MATLAB command timed out after 60 seconds", false, -1⟩ ∧
    MatlabSubprocess.run_matlab_command cmd sp (ProcOutcome.raised msg)
      = ⟨"", "Error running MATLAB: " ++ msg, false, -1⟩ := by
  refine ⟨?_, rfl, rfl, rfl, rfl, ?_, rfl, rfl⟩
  · show (rc == 0) = true ↔ rc = 0
    simp
  · show (rc == 0) = true ↔ rc = 0
    simp

/-- C3, counterexample: the name "é" consists of a single character outside
the ASCII class `[A-Za-z0-9_]`, yet Python's Unicode-aware `isalnum`
accepts it, so create-script does not raise a validation error and writes
the file `matlab_scripts/é.m`. -/
theorem C3_counterexample :
    asciiIdentChar 'é' = false ∧
    pyCharIsAlnum 'é' = true ∧
    (MatlabServer.handle_create_script emptyStore "é" "disp(1)").1
      = MatlabServer.CreateResult.created (MATLAB_DIR ++ "/" ++ "é" ++ ".m") ∧
    (MatlabServer.handle_create_script emptyStore "é" "disp(1)").2
      (MATLAB_DIR ++ "/" ++ "é" ++ ".m") = some "disp(1)" := by
  refine ⟨by decide, by decide, ?_, ?_⟩ <;>
    simp [MatlabServer.handle_create_script, show validateName "é" = true by decide]

/-- C3 (amended): for every name containing at least one character that is
neither underscore nor Python-alphanumeric — which covers every ASCII
character outside `[A-Za-z0-9_]` — both create-script and create-function
fail with the validation-error message (which includes the offending name)
and leave the stored directory untouched.  Names made only of underscores
and Python-alphanumeric characters pass the check even when they contain
non-ASCII characters outside `[A-Za-z0-9_]`, such as "é". -/
theorem C3_theorem (store : Store) (name code : String) (c : Char)
    (hc : c ∈ name.toList) (hne : c ≠ '_') (hbad : pyCharIsAlnum c = false) :
    MatlabServer.handle_create_script store name code
      = (MatlabServer.CreateResult.validationError
          ("Error: Script name '" ++ name ++ "' must be a valid MATLAB identifier"),
         store) ∧
    MatlabServer.handle_create_function store name code
      = (MatlabServer.CreateResult.validationError
          ("Error: Function name '" ++ name ++ "' must be a valid MATLAB identifier"),
         store) := by
  have hv : validateName name = false := validateName_false_of_bad hc hne hbad
  constructor <;>
    simp [MatlabServer.handle_create_script, MatlabServer.handle_create_function, hv]

/-- C3, witness: instantiation at the name "a-b" (the hyphen is an ASCII
character outside `[A-Za-z0-9_]`). -/
theorem C3_witness :
    MatlabServer.handle_create_script emptyStore "a-b" "disp(1)"
      = (MatlabServer.CreateResult.validationError
          ("Error: Script name '" ++ "a-b" ++ "' must be a valid MATLAB identifier"),
         emptyStore) ∧
    MatlabServer.handle_create_function emptyStore "a-b" "disp(1)"
      = (MatlabServer.CreateResult.validationError
          ("Error: Function name '" ++ "a-b" ++ "' must be a valid MATLAB identifier"),
         emptyStore) :=
  C3_theorem emptyStore "a-b" "disp(1)" '-' (by decide) (by decide) (by decide)

/-- C9: the empty name and every name consisting only of underscores fail
the check `name.replace('_', '').isalnum()` — underscore removal leaves the
empty string, on which Python's `isalnum` is false — so both create tools
reject them and write no file. -/
theorem C9_theorem (store : Store) (name code : String)
    (h : ∀ c ∈ name.toList, c = '_') :
    validateName name = false ∧
    MatlabServer.handle_create_script store name code
      = (MatlabServer.CreateResult.validationError
          ("Error: Script name '" ++ name ++ "' must be a valid MATLAB identifier"),
         store) ∧
    MatlabServer.handle_create_function store name code
      = (MatlabServer.CreateResult.validationError
          ("Error: Function name '" ++ name ++ "' must be a valid MATLAB identifier"),
         store) := by
  have hv : validateName name = false := validateName_false_of_underscores h
  refine ⟨hv, ?_, ?_⟩ <;>
    simp [MatlabServer.handle_create_script, MatlabServer.handle_create_function, hv]

/-- C9, witness: instantiation at the underscore-only name "___". -/
theorem C9_witness :
    validateName "___" = false ∧
    MatlabServer.handle_create_script emptyStore "___" "disp(1)"
      = (MatlabServer.CreateResult.validationError
          ("Error: Script name '" ++ "___" ++ "' must be a valid MATLAB identifier"),
         emptyStore) ∧
    MatlabServer.handle_create_function emptyStore "___" "disp(1)"
      = (MatlabServer.CreateResult.validationError
          ("Error: Function name '" ++ "___" ++ "' must be a valid MATLAB identifier"),
         emptyStore) :=
  C9_theorem emptyStore "___" "disp(1)" (by decide)

/-- C4: when no file `matlab_scripts/<name>.m` is stored, execute-named
returns the not-found error text at once; the answer is the same for every
process outcome, so no external process is consulted (and the `notFound`
constructor carries no execution result). -/
theorem C4_theorem (store : Store) (name : String) (proc proc2 : ProcOutcome)
    (h : store (MATLAB_DIR ++ "/" ++ name ++ ".m") = none) :
    MatlabServer.handle_execute_script store name proc
      = MatlabServer.ScriptExec.notFound
          ("Error: Script '" ++ name ++ ".m' not found in " ++ MATLAB_DIR) ∧
    MatlabServer.handle_execute_script store name proc
      = MatlabServer.handle_execute_script store name proc2 := by
  constructor <;> simp [MatlabServer.handle_execute_script, h]

/-- C4, witness: instantiation at the empty directory and the name "t1",
comparing a timed-out oracle with a completed one. -/
theorem C4_witness :
    MatlabServer.handle_execute_script emptyStore "t1" ProcOutcome.timedOut
      = MatlabServer.ScriptExec.notFound
          ("Error: Script '" ++ "t1" ++ ".m' not found in " ++ MATLAB_DIR) ∧
    MatlabServer.handle_execute_script emptyStore "t1" ProcOutcome.timedOut
      = MatlabServer.handle_execute_script emptyStore "t1"
          (ProcOutcome.completed "" "" 0) :=
  C4_theorem emptyStore "t1" ProcOutcome.timedOut (ProcOutcome.completed "" "" 0) rfl

/-- C5: for every valid name, create-script confirms with the stored path,
the file `matlab_scripts/<name>.m` afterwards contains exactly the supplied
body — whatever it contained before, so re-creation overwrites — and every
other path is untouched. -/
theorem C5_theorem (store : Store) (name code : String)
    (hv : validateName name = true) :
    (MatlabServer.handle_create_script store name code).1
      = MatlabServer.CreateResult.created (MATLAB_DIR ++ "/" ++ name ++ ".m") ∧
    (MatlabServer.handle_create_script store name code).2
      (MATLAB_DIR ++ "/" ++ name ++ ".m") = some code ∧
    ∀ k, k ≠ MATLAB_DIR ++ "/" ++ name ++ ".m" →
      (MatlabServer.handle_create_script store name code).2 k = store k := by
  refine ⟨?_, ?_, ?_⟩
  · simp [MatlabServer.handle_create_script, hv]
  · simp [MatlabServer.handle_create_script, hv]
  · intro k hk
    simp [MatlabServer.handle_create_script, hv, hk]

/-- C5, witness: create-script("t1", "disp(1)") over a directory already
holding an older body for "t1"; reading the stored artifact afterwards
returns exactly "disp(1)". -/
theorem C5_witness :
    (MatlabServer.handle_create_script
        (fun k => if k == MATLAB_DIR ++ "/" ++ "t1" ++ ".m" then some "old" else none)
        "t1" "disp(1)").1
      = MatlabServer.CreateResult.created (MATLAB_DIR ++ "/" ++ "t1" ++ ".m") ∧
    (MatlabServer.handle_create_script
        (fun k => if k == MATLAB_DIR ++ "/" ++ "t1" ++ ".m" then some "old" else none)
        "t1" "disp(1)").2
      (MATLAB_DIR ++ "/" ++ "t1" ++ ".m") = some "disp(1)" :=
  have h := C5_theorem
    (fun k => if k == MATLAB_DIR ++ "/" ++ "t1" ++ ".m" then some "old" else none)
    "t1" "disp(1)" (by decide)
  ⟨h.1, h.2.1⟩

/-- C6, counterexample: create-function accepts the body "x = 1", whose
first non-whitespace token is not `function`, with the valid name "f": no
validation error is raised and the file is written with that body. -/
theorem C6_counterexample :
    specFunctionBodyCheck "x = 1" = false ∧
    (MatlabServer.handle_create_function emptyStore "f" "x = 1").1
      = MatlabServer.CreateResult.created (MATLAB_DIR ++ "/" ++ "f" ++ ".m") ∧
    (MatlabServer.handle_create_function emptyStore "f" "x = 1").2
      (MATLAB_DIR ++ "/" ++ "f" ++ ".m") = some "x = 1" := by
  refine ⟨by decide, ?_, ?_⟩ <;>
    simp [MatlabServer.handle_create_function, show validateName "f" = true by decide]

/-- C6 (amended): create-function validates only the name, with the same
check as create-script; it performs no inspection of the body, so for
every body — including bodies whose first non-whitespace token does not
declare a function — a valid name leads to the file being written with
that body. -/
theorem C6_theorem (store : Store) (name code : String)
    (hv : validateName name = true) :
    (MatlabServer.handle_create_function store name code).1
      = MatlabServer.CreateResult.created (MATLAB_DIR ++ "/" ++ name ++ ".m") ∧
    (MatlabServer.handle_create_function store name code).2
      (MATLAB_DIR ++ "/" ++ name ++ ".m") = some code := by
  constructor <;> simp [MatlabServer.handle_create_function, hv]

/-- C6, witness: instantiation at the name "f" and the non-function body
"x = 1". -/
theorem C6_witness :
    (MatlabServer.handle_create_function emptyStore "f" "x = 1").1
      = MatlabServer.CreateResult.created (MATLAB_DIR ++ "/" ++ "f" ++ ".m") ∧
    (MatlabServer.handle_create_function emptyStore "f" "x = 1").2
      (MATLAB_DIR ++ "/" ++ "f" ++ ".m") = some "x = 1" :=
  C6_theorem emptyStore "f" "x = 1" (by decide)

/-- C10: execute-named applies no validation to the requested name: for
every string — strings containing path separators or characters outside
`[A-Za-z0-9_]` included — whenever the resolved path
`matlab_scripts/<s>.m` is stored, the gateway is invoked on exactly that
path (so the outcome is `executed`, not `notFound`). -/
theorem C10_theorem (store : Store) (s body : String) (proc : ProcOutcome)
    (h : store (MATLAB_DIR ++ "/" ++ s ++ ".m") = some body) :
    MatlabServer.handle_execute_script store s proc
      = MatlabServer.ScriptExec.executed (MATLAB_DIR ++ "/" ++ s ++ ".m")
          (MatlabServer.run_matlab_command ""
            (some (MATLAB_DIR ++ "/" ++ s ++ ".m")) proc)
          (MatlabServer.renderScriptResponse s
            (MatlabServer.run_matlab_command ""
              (some (MATLAB_DIR ++ "/" ++ s ++ ".m")) proc)) := by
  simp [MatlabServer.handle_execute_script, h]

/-- C10, witness: instantiation at the name "a/b", which contains a path
separator, stored in the directory; execute-named runs it anyway. -/
theorem C10_witness :
    MatlabServer.handle_execute_script
        (fun k => if k == MATLAB_DIR ++ "/" ++ "a/b" ++ ".m" then some "x" else none)
        "a/b" ProcOutcome.timedOut
      = MatlabServer.ScriptExec.executed (MATLAB_DIR ++ "/" ++ "a/b" ++ ".m")
          (MatlabServer.run_matlab_command ""
            (some (MATLAB_DIR ++ "/" ++ "a/b" ++ ".m")) ProcOutcome.timedOut)
          (MatlabServer.renderScriptResponse "a/b"
            (MatlabServer.run_matlab_command ""
              (some (MATLAB_DIR ++ "/" ++ "a/b" ++ ".m")) ProcOutcome.timedOut)) :=
  C10_theorem
    (fun k => if k == MATLAB_DIR ++ "/" ++ "a/b" ++ ".m" then some "x" else none)
    "a/b" "x" ProcOutcome.timedOut (by simp)

/-- C1, counterexample: in `matlab_server_subprocess.py`, a command whose
process exits with code 2 and stdout "hello" renders a failure response
that does not contain the captured stdout. -/
theorem C1_counterexample :
    (MatlabSubprocess.run_matlab_command "x" none
        (ProcOutcome.completed "hello" "boom" 2)).output = "hello" ∧
    (MatlabSubprocess.run_matlab_command "x" none
        (ProcOutcome.completed "hello" "boom" 2)).success = false ∧
    strHas (MatlabSubprocess.handle_execute_command "x"
        (ProcOutcome.completed "hello" "boom" 2)) "hello" = false := by
  refine ⟨rfl, by decide, by decide⟩

/-- C1 (amended): in both variants the result has success=true exactly when
the exit code is 0.  In `matlab_server.py`, the failure responses of both
execute-command and execute-named end with the captured stdout whenever it
is non-empty.  In `matlab_server_subprocess.py`, the failure response of
execute-command consists of the header and the error text only, omitting
the captured stdout. -/
theorem C1_theorem (cmd sname out err : String) (rc : Int)
    (h1 : rc ≠ 0) (h2 : out ≠ "") :
    ((MatlabServer.run_matlab_command cmd none
        (ProcOutcome.completed out err rc)).success = true ↔ rc = 0) ∧
    ((MatlabSubprocess.run_matlab_command cmd none
        (ProcOutcome.completed out err rc)).success = true ↔ rc = 0) ∧
    MatlabServer.handle_execute_command cmd (ProcOutcome.completed out err rc)
      = (("MATLAB Command: " ++ cmd ++ "\n\n")
          ++ "Error (Return code: " ++ toString rc ++ "):\n" ++ err)
        ++ "\n\nOutput:\n" ++ out ∧
    MatlabServer.renderScriptResponse sname ⟨out, err, false, rc⟩
      = (("Executed MATLAB script: " ++ sname ++ ".m\n\n")
          ++ "Error (Return code: " ++ toString rc ++ "):\n" ++ err)
        ++ "\n\nOutput:\n" ++ out ∧
    MatlabSubprocess.handle_execute_command cmd (ProcOutcome.completed out err rc)
      = ("MATLAB Command: " ++ cmd ++ "\n\n") ++ "Error:\n" ++ err := by
  have hs : (rc == 0) = false := by simp [h1]
  have ho : (out == "") = false := by simp [h2]
  refine ⟨by simp [MatlabServer.run_matlab_command],
          by simp [MatlabSubprocess.run_matlab_command], ?_, ?_, ?_⟩
  · simp [MatlabServer.handle_execute_command, MatlabServer.renderCommandResponse,
      MatlabServer.run_matlab_command, hs, ho]
  · simp [MatlabServer.renderScriptResponse, ho]
  · simp [MatlabSubprocess.handle_execute_command,
      MatlabSubprocess.renderCommandResponse, MatlabSubprocess.run_matlab_command, hs]

/-- C1, witness: instantiation at the command "x", stdout "hello", stderr
"boom", exit code 2, and the script name "t1". -/
theorem C1_witness :
    ((MatlabServer.run_matlab_command "x" none
        (ProcOutcome.completed "hello" "boom" 2)).success = true ↔ (2 : Int) = 0) ∧
    ((MatlabSubprocess.run_matlab_command "x" none
        (ProcOutcome.completed "hello" "boom" 2)).success = true ↔ (2 : Int) = 0) ∧
    MatlabServer.handle_execute_command "x" (ProcOutcome.completed "hello" "boom" 2)
      = (("MATLAB Command: " ++ "x" ++ "\n\n")
          ++ "Error (Return code: " ++ toString (2 : Int) ++ "):\n" ++ "boom")
        ++ "\n\nOutput:\n" ++ "hello" ∧
    MatlabServer.renderScriptResponse "t1" ⟨"hello", "boom", false, 2⟩
      = (("Executed MATLAB script: " ++ "t1" ++ ".m\n\n")
          ++ "Error (Return code: " ++ toString (2 : Int) ++ "):\n" ++ "boom")
        ++ "\n\nOutput:\n" ++ "hello" ∧
    MatlabSubprocess.handle_execute_command "x" (ProcOutcome.completed "hello" "boom" 2)
      = ("MATLAB Command: " ++ "x" ++ "\n\n") ++ "Error:\n" ++ "boom" :=
  C1_theorem "x" "t1" "hello" "boom" 2 (by decide) (by decide)

end MatlabMCP
